import Mathlib

/-!
# Verification of the `syftr` retrieval fragment

A shallow embedding of the two source files of this repository fragment:

* `syftr/retrievers/remote.py` — `RemoteRetriever` (an HTTP retrieval adapter),
  the method→port registry `RETRIEVAL_SERVER_PORTS`, and the factory
  `get_remote_retriever`;
* `syftr/ray/utils.py` — `ray_init`, the idempotent cluster initializer.

Python values passed around by the retriever are JSON-shaped, so they are
modelled by an inductive `Json` type.  Python exceptions become `Except`
values; the blanket `try/except` of `RemoteRetriever._retrieve` becomes a
`match` that converts every `Except.error` into the empty list.  The HTTP
layer itself is external and is modelled as an arbitrary function from the
request (URL and JSON payload) to an abstract outcome.
-/

namespace Syftr

/-- JSON-shaped Python values (dicts, lists, strings, numbers, booleans,
`None`).  Numbers are modelled as rationals: the code never performs
arithmetic on scores, it only moves them around, so any faithful numeric
carrier works.  Python dicts are modelled as association lists with the
first binding winning (Python dicts have unique keys). -/
inductive Json where
  | null
  | bool (b : Bool)
  | num (q : ℚ)
  | str (s : String)
  | arr (elems : List Json)
  | obj (fields : List (String × Json))

/-- Python exceptions that can occur inside the `try` block of
`RemoteRetriever._retrieve`. -/
inductive PyErr where
  | requestException        -- `requests.exceptions.RequestException` and subclasses
  | jsonDecodeError         -- `response.json()` fails to parse the body
  | attributeError          -- `.get` called on a non-dict value
  | typeError               -- e.g. `enumerate` of a non-iterable value
  | validationError         -- pydantic validation of `TextNode`/`NodeWithScore` fails
deriving DecidableEq

/-- Python `value.get(key, default)`: on a dict, the value bound to `key`
(or `default` when the key is absent); on any non-dict value the attribute
`.get` does not exist and the expression raises `AttributeError`. -/
def Json.get : Json → String → Json → Except PyErr Json
  | .obj fields, key, dflt => .ok ((fields.lookup key).getD dflt)
  | _, _, _ => .error .attributeError

/-- `llama_index.core.schema.TextNode`, restricted to the fields the code
sets: `text`, `metadata` and the explicit node id `id_`. -/
structure TextNode where
  id_ : String
  text : String
  metadata : List (String × Json)

/-- `llama_index.core.schema.NodeWithScore`: a node paired with its
relevance score. -/
structure NodeWithScore where
  node : TextNode
  score : ℚ

/-- `RemoteRetriever`'s own attributes (the `BaseRetriever` superclass state
plays no role in the embedded code). -/
structure RemoteRetriever where
  api_url : String
  retrieval_method : String
  top_k : Nat
  timeout : Nat

/-- Python's `s.rstrip("/")`: remove every trailing `'/'`. -/
def rstripSlashes (s : String) : String :=
  ((s.data.reverse.dropWhile (fun c => c = '/')).reverse).asString

/-- `RemoteRetriever.__init__`: stores the constructor arguments verbatim
(stripping trailing slashes from `api_url`) and performs no validation of
`retrieval_method`. -/
def RemoteRetriever.init (api_url : String) (retrieval_method : String := "dense_small")
    (top_k : Nat := 10) (timeout : Nat := 30) : RemoteRetriever :=
  { api_url := rstripSlashes api_url
    retrieval_method := retrieval_method
    top_k := top_k
    timeout := timeout }

/-- The node id `f"{self.retrieval_method}_{idx}_{hash(page_content)}"`.
Python's string hash is process-seeded, so the hash value is an abstract
integer supplied by the caller of the model. -/
def nodeId (method : String) (idx : Nat) (h : Int) : String :=
  method ++ "_" ++ Nat.repr idx ++ "_" ++ Int.repr h

/-- The body of the mapping loop of `RemoteRetriever._retrieve` for the
element `result` at position `idx` of the `results` array:

* `score = result.get("score", 0.0)`,
* `document = result.get("document", {})`,
* `page_content = document.get("page_content", "")`,
* `metadata = document.get("metadata", {})`,
* `TextNode(text=page_content, metadata=metadata, id_=...)` and
  `NodeWithScore(node=node, score=score)`.

`TextNode` and `NodeWithScore` are pydantic models: a non-string
`page_content`, a non-dict `metadata` or a non-numeric `score` fails
validation and raises (a dict `page_content` would already fail in
`hash(page_content)`); all such exceptions land in the same blanket
handler. -/
def mapResult (method : String) (hash : String → Int) (idx : Nat) (result : Json) :
    Except PyErr NodeWithScore := do
  let score ← result.get "score" (.num 0)
  let document ← result.get "document" (.obj [])
  let page_content ← document.get "page_content" (.str "")
  let metadata ← document.get "metadata" (.obj [])
  match page_content, metadata, score with
  | .str text, .obj md, .num s =>
      .ok { node := { id_ := nodeId method idx (hash text)
                      text := text
                      metadata := md }
            score := s }
  | _, _, _ => .error .validationError

/-- The `for idx, result in enumerate(results)` loop: results are mapped in
order, starting at index `idx`, and the first exception aborts the whole
loop (there is no per-element recovery). -/
def mapResults (method : String) (hash : String → Int) :
    Nat → List Json → Except PyErr (List NodeWithScore)
  | _, [] => .ok []
  | idx, r :: rs => do
      let n ← mapResult method hash idx r
      let ns ← mapResults method hash (idx + 1) rs
      .ok (n :: ns)

/-- The observable behaviour of the HTTP layer for one
`requests.post(...)` call followed by `raise_for_status()` and
`response.json()`:

* `requestError` — connection refused, timeout, or a non-2xx status turned
  into an exception by `raise_for_status` (all are
  `requests.exceptions.RequestException`s);
* `jsonError` — a 2xx response whose body `response.json()` cannot parse;
* `success body` — a 2xx response with JSON body `body`. -/
inductive HttpOutcome where
  | requestError
  | jsonError
  | success (body : Json)

/-- The JSON request payload `{"query": query_str, "k": self.top_k}`. -/
def queryPayload (query_str : String) (top_k : Nat) : Json :=
  .obj [("query", .str query_str), ("k", .num top_k)]

/-- The `try` block of `RemoteRetriever._retrieve` after the HTTP call's
outcome is known: `data.get("results", [])` followed by the mapping loop.
When `results` is not a list, `enumerate` iterates its elements/keys/chars
(each of which immediately fails `.get`) or raises `TypeError`; the one
case where Python's loop would instead run zero times (an empty string or
dict) also produces the empty overall result, via the handler instead of a
normal return, so the returned value of `_retrieve` is unchanged. -/
def retrieveTry (r : RemoteRetriever) (hash : String → Int) :
    HttpOutcome → Except PyErr (List NodeWithScore)
  | .requestError => .error .requestException
  | .jsonError => .error .jsonDecodeError
  | .success data => do
      let results ← data.get "results" (.arr [])
      match results with
      | .arr rs => mapResults r.retrieval_method hash 0 rs
      | _ => .error .typeError

/-- `RemoteRetriever._retrieve`: builds the URL `{api_url}/search` and the
payload, performs the HTTP call (abstracted as `http`), and wraps the whole
body in `try/except`: `except RequestException` and `except Exception`
both log and return `[]`, so every failure becomes the empty list and the
method always returns normally. -/
def _retrieve (r : RemoteRetriever) (hash : String → Int)
    (http : String → Json → HttpOutcome) (query_str : String) : List NodeWithScore :=
  match retrieveTry r hash (http (r.api_url ++ "/search") (queryPayload query_str r.top_k)) with
  | .ok nodes => nodes
  | .error _ => []

/-- The fixed method→port registry `RETRIEVAL_SERVER_PORTS` (a Python dict;
insertion order preserved). -/
def RETRIEVAL_SERVER_PORTS : List (String × Nat) :=
  [("bm25", 6030),
   ("dense_small", 6002),
   ("dense_large", 6001),
   ("hybrid_small", 6024),
   ("hybrid_large", 6025)]

/-- A single quote character, as used by Python's `repr` of strings. -/
def squote : String := String.singleton (Char.ofNat 39)

/-- Python's `str(list(...))` applied to the registry's keys:
`['bm25', 'dense_small', 'dense_large', 'hybrid_small', 'hybrid_large']`. -/
def pyStrListRepr (xs : List String) : String :=
  "[" ++ String.intercalate ", " (xs.map (fun s => squote ++ s ++ squote)) ++ "]"

/-- The `ValueError` message of `get_remote_retriever` for an unknown
method. -/
def unknownMethodMsg (retrieval_method : String) : String :=
  "Unknown retrieval method: " ++ retrieval_method ++ ". Valid options: " ++
    pyStrListRepr (RETRIEVAL_SERVER_PORTS.map Prod.fst)

/-- `get_remote_retriever`: validates the method against the registry
(raising `ValueError`, modelled as `Except.error` carrying the message),
then builds `api_url = f"http://{host}:{port}"` and constructs the
retriever. -/
def get_remote_retriever (host : String) (retrieval_method : String)
    (top_k : Nat := 10) (timeout : Nat := 30) : Except String RemoteRetriever :=
  match RETRIEVAL_SERVER_PORTS.lookup retrieval_method with
  | none => .error (unknownMethodMsg retrieval_method)
  | some port =>
      .ok (RemoteRetriever.init ("http://" ++ host ++ ":" ++ Nat.repr port)
        retrieval_method top_k timeout)

/-!
## `syftr/ray/utils.py`

`ray_init` touches process-global state: the ray client connection, the
process environment, and the filesystem (one `os.makedirs` call).  That
state is made explicit as `RayState`, and `ray_init` becomes a state
transformer.  The configuration object `cfg` comes from
`syftr.configuration`, which is not part of this fragment.
-/

/-- Modelled from the spec: the configuration subsystem
(`syftr.configuration.cfg`) is not part of this fragment.  Per the spec it
supplies "the configured remote endpoint address" used when `forceRemote`
is set, and the logging level passed to the client library. -/
structure Config where
  ray_remote_endpoint : String
  logging_level : Nat

/-- The process-global state read and written by `ray_init`:

* `initialized` — the value of `ray.is_initialized()`;
* `connection` — once connected, the `address` argument that was passed to
  `ray.init` (`none` = local);
* `env` — the process environment (`os.environ`);
* `dirs` — the set of existing directories, as a list. -/
structure RayState where
  initialized : Bool
  connection : Option (Option String)
  env : List (String × String)
  dirs : List String

/-- `os.path.join(a, b)` for the relative component `b = "ray"` used by the
code: no duplicate separator is inserted after a trailing slash. -/
def pathJoin (a b : String) : String :=
  if a.endsWith "/" then a ++ b else a ++ "/" ++ b

/-- `os.makedirs(d, exist_ok=True)`: create the directory if absent,
succeed silently if it already exists. -/
def makedirs (dirs : List String) (d : String) : List String :=
  if d ∈ dirs then dirs else d :: dirs

/-- `os.environ[key] = value`. -/
def envSet (env : List (String × String)) (key value : String) : List (String × String) :=
  (key, value) :: env.filter (fun kv => kv.1 ≠ key)

/-- `ray_init(force_remote)` from `syftr/ray/utils.py`.

If `ray.is_initialized()` the function only logs the existing address and
returns.  Otherwise `address = cfg.ray.remote_endpoint if force_remote
else None`; when `address is None` the local setup runs (compute
`ray_tmpdir` from `MATHEW_HOME` with fallback `/tmp`, `os.makedirs` it,
and set `os.environ["RAY_TMPDIR"]`), and finally `ray.init(address=...)`
establishes the connection.  (`getpass.getuser()` is called but its result
is unused.) -/
def ray_init (cfg : Config) (force_remote : Bool) (s : RayState) : RayState :=
  if s.initialized then
    s
  else
    let address : Option String :=
      if force_remote then some cfg.ray_remote_endpoint else none
    let s1 :=
      if address.isNone then
        let mathew_home := (s.env.lookup "MATHEW_HOME").getD "/tmp"
        let ray_tmpdir := pathJoin mathew_home "ray"
        { s with dirs := makedirs s.dirs ray_tmpdir
                 env := envSet s.env "RAY_TMPDIR" ray_tmpdir }
      else s
    { s1 with initialized := true, connection := some address }

/-!
## Well-formed response elements

The spec (steps 6–7 of the `retrieve` operation) describes a well-formed
element of the `results` array: an object whose `score` is a number when
present (default `0.0`), whose `document` is an object when present
(default `{}`), with `page_content` a string when present (default `""`)
and `metadata` an object when present (default `{}`).  `DocSpec` /
`ResultSpec` describe exactly these shapes, `toJson` turns a description
into the JSON element the server would send, and `expText` / `expMeta` /
`expScore` are the field values the spec says the client must extract. -/

/-- Shape of a well-formed nested `document` object: each field either
absent or present with the expected type. -/
structure DocSpec where
  page_content : Option String
  metadata : Option (List (String × Json))

/-- Shape of a well-formed element of the `results` array. -/
structure ResultSpec where
  score : Option ℚ
  document : Option DocSpec

/-- The JSON object described by a `DocSpec` (absent fields omitted). -/
def DocSpec.toJson (d : DocSpec) : Json :=
  .obj ((d.page_content.map (fun t => ("page_content", Json.str t))).toList ++
        (d.metadata.map (fun m => ("metadata", Json.obj m))).toList)

/-- The JSON object described by a `ResultSpec` (absent fields omitted). -/
def ResultSpec.toJson (r : ResultSpec) : Json :=
  .obj ((r.score.map (fun q => ("score", Json.num q))).toList ++
        (r.document.map (fun d => ("document", d.toJson))).toList)

/-- The extracted score: `score`, defaulting to `0.0`. -/
def ResultSpec.expScore (r : ResultSpec) : ℚ :=
  r.score.getD 0

/-- The extracted text: `document.page_content`, defaulting to `""`. -/
def ResultSpec.expText (r : ResultSpec) : String :=
  (r.document.bind DocSpec.page_content).getD ""

/-- The extracted metadata: `document.metadata`, defaulting to `{}`. -/
def ResultSpec.expMeta (r : ResultSpec) : List (String × Json) :=
  (r.document.bind DocSpec.metadata).getD []

/-- The output the spec prescribes for a list of well-formed results when
numbering starts at `idx`: one `ScoredDocument` per element, in response
order, with identifier `{method}_{index}_{hash(page_content)}`. -/
def expectedNodes (method : String) (hash : String → Int) :
    Nat → List ResultSpec → List NodeWithScore
  | _, [] => []
  | idx, r :: rs =>
      { node := { id_ := nodeId method idx (hash r.expText)
                  text := r.expText
                  metadata := r.expMeta }
        score := r.expScore } :: expectedNodes method hash (idx + 1) rs

/-- A response body `{"results": [...]}` whose results are described by
`specs`. -/
def resultsBody (specs : List ResultSpec) : Json :=
  .obj [("results", .arr (specs.map ResultSpec.toJson))]

/-!
## Decimal representation helpers

`nodeId` embeds the result index via `Nat.repr`.  To reason about
identifier collisions we relate `Nat.repr` to a structurally recursive
digit function `decDigits` and prove that decimal strings contain no
underscore and determine the number. -/

/-- The decimal digit string of `n`, most significant digit first:
structural mirror of `Nat.toDigits 10 n`. -/
def decDigits (n : Nat) : List Char :=
  if _h : n < 10 then [Nat.digitChar n]
  else decDigits (n / 10) ++ [Nat.digitChar (n % 10)]
decreasing_by exact Nat.div_lt_self (by omega) (by omega)

/-- Reading a digit string back as a number, given an accumulator. -/
def valFrom (a : Nat) : List Char → Nat
  | [] => a
  | c :: cs => valFrom (10 * a + (c.toNat - 48)) cs

/-!
## Infrastructure lemmas: decimal strings
-/

theorem toDigitsCore_eq_decDigits (fuel : Nat) :
    ∀ (n : Nat) (ds : List Char), n < fuel →
      Nat.toDigitsCore 10 fuel n ds = decDigits n ++ ds := by
  induction fuel with
  | zero => intro n ds h; omega
  | succ f ih =>
    intro n ds h
    rw [Nat.toDigitsCore]
    by_cases h10 : n / 10 = 0
    · have hn : n < 10 := by omega
      rw [if_pos h10, decDigits, dif_pos hn, Nat.mod_eq_of_lt hn]
      simp
    · have hn : ¬ n < 10 := by omega
      have hrec : decDigits n = decDigits (n / 10) ++ [Nat.digitChar (n % 10)] := by
        conv_lhs => rw [decDigits]
        rw [dif_neg hn]
      rw [if_neg h10, ih (n / 10) _ (by omega), hrec, List.append_assoc]
      simp

theorem repr_eq_decDigits (n : Nat) : Nat.repr n = (decDigits n).asString := by
  have h := toDigitsCore_eq_decDigits (n + 1) n [] (Nat.lt_succ_self n)
  rw [List.append_nil] at h
  show (Nat.toDigits 10 n).asString = _
  rw [Nat.toDigits, h]

theorem valFrom_nil (a : Nat) : valFrom a [] = a := rfl

theorem valFrom_cons (a : Nat) (c : Char) (cs : List Char) :
    valFrom a (c :: cs) = valFrom (10 * a + (c.toNat - 48)) cs := rfl

theorem valFrom_append (l₁ : List Char) :
    ∀ (a : Nat) (l₂ : List Char), valFrom a (l₁ ++ l₂) = valFrom (valFrom a l₁) l₂ := by
  induction l₁ with
  | nil => intro a l₂; rfl
  | cons c cs ih => intro a l₂; rw [List.cons_append, valFrom_cons, valFrom_cons, ih]

theorem digitChar_val : ∀ d < 10, (Nat.digitChar d).toNat - 48 = d := by decide

theorem digitChar_ne_underscore : ∀ d < 10, Nat.digitChar d ≠ '_' := by decide

theorem valFrom_decDigits (n : Nat) :
    ∀ a : Nat, valFrom a (decDigits n) = a * 10 ^ (decDigits n).length + n := by
  induction n using Nat.strong_induction_on with
  | _ n ih =>
    intro a
    by_cases hn : n < 10
    · rw [decDigits, dif_pos hn, valFrom_cons, valFrom_nil, digitChar_val n hn,
        List.length_singleton, pow_one]
      omega
    · rw [decDigits, dif_neg hn]
      have hdiv : n / 10 < n := Nat.div_lt_self (by omega) (by omega)
      rw [valFrom_append, ih (n / 10) hdiv a, valFrom_cons, valFrom_nil,
        digitChar_val (n % 10) (Nat.mod_lt n (by omega)), List.length_append,
        List.length_singleton, pow_succ, ← mul_assoc]
      generalize a * 10 ^ (decDigits (n / 10)).length = Y
      omega

theorem decDigits_inj {m n : Nat} (h : decDigits m = decDigits n) : m = n := by
  have hm := valFrom_decDigits m 0
  have hn := valFrom_decDigits n 0
  rw [h] at hm
  omega

theorem repr_inj {m n : Nat} (h : Nat.repr m = Nat.repr n) : m = n := by
  rw [repr_eq_decDigits, repr_eq_decDigits] at h
  exact decDigits_inj (List.asString_inj.mp h)

theorem underscore_not_mem_decDigits (n : Nat) : '_' ∉ decDigits n := by
  induction n using Nat.strong_induction_on with
  | _ n ih =>
    by_cases hn : n < 10
    · rw [decDigits, dif_pos hn]
      simp [digitChar_ne_underscore n hn]
      intro hc
      exact digitChar_ne_underscore n hn hc.symm
    · rw [decDigits, dif_neg hn]
      have hdiv : n / 10 < n := Nat.div_lt_self (by omega) (by omega)
      simp [List.mem_append, ih (n / 10) hdiv]
      intro hc
      exact digitChar_ne_underscore (n % 10) (Nat.mod_lt n (by omega)) hc.symm

theorem underscore_not_mem_repr (n : Nat) : '_' ∉ (Nat.repr n).data := by
  rw [repr_eq_decDigits]
  exact underscore_not_mem_decDigits n

theorem append_sep_inj {sep : Char} :
    ∀ (a b x y : List Char), sep ∉ a → sep ∉ b →
      a ++ sep :: x = b ++ sep :: y → a = b ∧ x = y := by
  intro a
  induction a with
  | nil =>
    intro b x y _ hb h
    cases b with
    | nil => simpa using h
    | cons d bs =>
      simp only [List.nil_append, List.cons_append, List.cons.injEq] at h
      exact absurd (h.1 ▸ List.mem_cons_self d bs) hb
  | cons c as ih =>
    intro b x y ha hb h
    cases b with
    | nil =>
      simp only [List.cons_append, List.nil_append, List.cons.injEq] at h
      exact absurd (h.1 ▸ List.mem_cons_self c as) ha
    | cons d bs =>
      simp only [List.cons_append, List.cons.injEq] at h
      obtain ⟨hcd, htail⟩ := h
      have has : sep ∉ as := fun hmem => ha (List.mem_cons_of_mem c hmem)
      have hbs : sep ∉ bs := fun hmem => hb (List.mem_cons_of_mem d hmem)
      obtain ⟨h1, h2⟩ := ih bs x y has hbs htail
      exact ⟨by rw [hcd, h1], h2⟩

theorem nodeId_inj_idx {method : String} {i j : Nat} {x y : Int}
    (h : nodeId method i x = nodeId method j y) : i = j := by
  unfold nodeId at h
  have hd := congrArg String.data h
  simp only [String.data_append, List.append_assoc] at hd
  have hd' : (Nat.repr i).data ++ '_' :: (Int.repr x).data =
      (Nat.repr j).data ++ '_' :: (Int.repr y).data := by
    simpa using (List.append_right_inj _).mp hd
  have := append_sep_inj _ _ _ _ (underscore_not_mem_repr i) (underscore_not_mem_repr j) hd'
  exact repr_inj (String.ext this.1)

/-!
## Infrastructure lemmas: strings and lookups
-/

theorem rstripSlashes_eq_self (s : String) (l : List Char) (c : Char)
    (hs : s.data = l ++ [c]) (hc : c ≠ '/') : rstripSlashes s = s := by
  unfold rstripSlashes
  rw [hs, List.reverse_append, List.reverse_singleton, List.singleton_append,
    List.dropWhile_cons]
  have hcf : (c = '/') = False := by simp [hc]
  rw [if_neg (by simp [hc])]
  rw [List.reverse_cons, List.reverse_reverse, ← hs]
  rfl

theorem rstripSlashes_append (s t : String) (l : List Char) (c : Char)
    (ht : t.data = l ++ [c]) (hc : c ≠ '/') : rstripSlashes (s ++ t) = s ++ t :=
  rstripSlashes_eq_self _ (s.data ++ l) c (by simp [ht]) hc

theorem bind_ok_eq {ε α β : Type} (x : α) (f : α → Except ε β) :
    (Bind.bind (Except.ok x) f : Except ε β) = f x := rfl

theorem bind_error_eq {ε α β : Type} (e : ε) (f : α → Except ε β) :
    (Bind.bind (Except.error e) f : Except ε β) = Except.error e := rfl

theorem lookup_eq_none_of_not_mem {β : Type} (a : String) (l : List (String × β))
    (h : a ∉ l.map Prod.fst) : l.lookup a = none := by
  induction l with
  | nil => rfl
  | cons p t ih =>
    obtain ⟨k, b⟩ := p
    simp only [List.map_cons, List.mem_cons] at h
    push_neg at h
    rw [List.lookup, beq_eq_false_iff_ne.mpr h.1]
    exact ih h.2

/-!
## Infrastructure lemmas: mapping well-formed results
-/

theorem mapResult_toJson (method : String) (hash : String → Int) (idx : Nat)
    (r : ResultSpec) :
    mapResult method hash idx r.toJson =
      .ok { node := { id_ := nodeId method idx (hash r.expText)
                      text := r.expText
                      metadata := r.expMeta }
            score := r.expScore } := by
  obtain ⟨sc, doc⟩ := r
  rcases doc with _ | ⟨pc, md⟩
  · rcases sc with _ | q <;> rfl
  · rcases sc with _ | q <;> rcases pc with _ | t <;> rcases md with _ | m <;> rfl

theorem mapResults_toJson (method : String) (hash : String → Int) (specs : List ResultSpec) :
    ∀ idx : Nat,
      mapResults method hash idx (specs.map ResultSpec.toJson) =
        .ok (expectedNodes method hash idx specs) := by
  induction specs with
  | nil => intro idx; rfl
  | cons r rs ih =>
    intro idx
    rw [List.map_cons, mapResults, expectedNodes, mapResult_toJson, ih (idx + 1)]
    rfl

theorem expectedNodes_length (method : String) (hash : String → Int)
    (specs : List ResultSpec) :
    ∀ idx : Nat, (expectedNodes method hash idx specs).length = specs.length := by
  induction specs with
  | nil => intro idx; rfl
  | cons r rs ih => intro idx; rw [expectedNodes, List.length_cons, List.length_cons, ih]

theorem retrieveTry_success (r : RemoteRetriever) (hash : String → Int)
    (specs : List ResultSpec) :
    retrieveTry r hash (.success (resultsBody specs)) =
      .ok (expectedNodes r.retrieval_method hash 0 specs) := by
  show mapResults r.retrieval_method hash 0 (specs.map ResultSpec.toJson) = _
  rw [mapResults_toJson]

theorem retrieve_success_eq (r : RemoteRetriever) (hash : String → Int)
    (http : String → Json → HttpOutcome) (query : String) (specs : List ResultSpec)
    (hh : http (r.api_url ++ "/search") (queryPayload query r.top_k) =
      .success (resultsBody specs)) :
    _retrieve r hash http query = expectedNodes r.retrieval_method hash 0 specs := by
  unfold _retrieve
  rw [hh, retrieveTry_success]

theorem mem_expectedNodes (method : String) (hash : String → Int) (specs : List ResultSpec) :
    ∀ (idx : Nat) (n : NodeWithScore), n ∈ expectedNodes method hash idx specs →
      ∃ j, idx ≤ j ∧ ∃ hv : Int, n.node.id_ = nodeId method j hv := by
  induction specs with
  | nil => intro idx n hn; simp [expectedNodes] at hn
  | cons r rs ih =>
    intro idx n hn
    rw [expectedNodes, List.mem_cons] at hn
    rcases hn with hn | hn
    · exact ⟨idx, le_refl idx, hash r.expText, by rw [hn]⟩
    · obtain ⟨j, hj, hv, hid⟩ := ih (idx + 1) n hn
      exact ⟨j, by omega, hv, hid⟩

theorem expectedNodes_ids_nodup (method : String) (hash : String → Int)
    (specs : List ResultSpec) :
    ∀ idx : Nat, ((expectedNodes method hash idx specs).map (fun n => n.node.id_)).Nodup := by
  induction specs with
  | nil => intro idx; simp [expectedNodes]
  | cons r rs ih =>
    intro idx
    rw [expectedNodes, List.map_cons, List.nodup_cons]
    refine ⟨fun hmem => ?_, ih (idx + 1)⟩
    obtain ⟨n, hn, hid⟩ := List.mem_map.mp hmem
    obtain ⟨j, hj, hv, hid'⟩ := mem_expectedNodes method hash rs (idx + 1) n hn
    have : j = idx := nodeId_inj_idx (by rw [← hid', hid])
    omega

theorem digitChar_ne_slash : ∀ d < 10, Nat.digitChar d ≠ '/' := by decide

theorem decDigits_concat (n : Nat) :
    ∃ l d, d < 10 ∧ decDigits n = l ++ [Nat.digitChar d] := by
  by_cases hn : n < 10
  · refine ⟨[], n, hn, ?_⟩
    rw [decDigits, dif_pos hn]
    rfl
  · refine ⟨decDigits (n / 10), n % 10, Nat.mod_lt n (by omega), ?_⟩
    conv_lhs => rw [decDigits]
    rw [dif_neg hn]

theorem rstripSlashes_append_repr (s : String) (n : Nat) :
    rstripSlashes (s ++ Nat.repr n) = s ++ Nat.repr n := by
  obtain ⟨l, d, hd, hdec⟩ := decDigits_concat n
  refine rstripSlashes_append s (Nat.repr n) l (Nat.digitChar d) ?_ (digitChar_ne_slash d hd)
  rw [repr_eq_decDigits]
  exact hdec

theorem retrieveTry_obj (r : RemoteRetriever) (hash : String → Int)
    (fields : List (String × Json)) (rs : List Json)
    (h : (fields.lookup "results").getD (.arr []) = .arr rs) :
    retrieveTry r hash (.success (.obj fields)) =
      mapResults r.retrieval_method hash 0 rs := by
  simp only [retrieveTry]
  rw [show Json.get (Json.obj fields) "results" (.arr []) =
      .ok ((fields.lookup "results").getD (.arr [])) from rfl]
  rw [h]
  rfl

/-!
## Infrastructure lemmas: malformed results
-/

theorem mapResult_nonobj (method : String) (hash : String → Int) (idx : Nat) (b : Json)
    (hb : ∀ fields, b ≠ Json.obj fields) : mapResult method hash idx b =
      .error .attributeError := by
  cases b with
  | obj fields => exact absurd rfl (hb fields)
  | null => rfl
  | bool _ => rfl
  | num _ => rfl
  | str _ => rfl
  | arr _ => rfl

theorem mapResults_error_of_bad (method : String) (hash : String → Int) (bad : Json)
    (post : List Json) (hbad : ∀ fields, bad ≠ Json.obj fields) :
    ∀ (pre : List Json) (idx : Nat),
      ∃ e, mapResults method hash idx (pre ++ bad :: post) = .error e := by
  intro pre
  induction pre with
  | nil =>
    intro idx
    refine ⟨.attributeError, ?_⟩
    rw [List.nil_append, mapResults, mapResult_nonobj method hash idx bad hbad]
    rfl
  | cons a pre ih =>
    intro idx
    rw [List.cons_append, mapResults]
    cases hma : mapResult method hash idx a with
    | error e => exact ⟨e, rfl⟩
    | ok n =>
      obtain ⟨e, he⟩ := ih (idx + 1)
      refine ⟨e, ?_⟩
      show (do
        let ns ← mapResults method hash (idx + 1) (pre ++ bad :: post)
        Except.ok (n :: ns)) = Except.error e
      rw [he]
      rfl

/-!
## Claim theorems
-/

/-- C1: for every query string and every behaviour of the HTTP layer,
`RemoteRetriever._retrieve` never raises: the embedded `_retrieve` is a
total function into `List NodeWithScore` (by its type), and whenever the
`try` block ends in any exception — connection refused, timeout, non-2xx
raised by `raise_for_status`, JSON parse failure, or any exception while
mapping the response — the call returns the empty sequence. -/
theorem retrieve_failure_returns_empty (r : RemoteRetriever) (hash : String → Int)
    (http : String → Json → HttpOutcome) (query : String) (e : PyErr)
    (hfail : retrieveTry r hash
      (http (r.api_url ++ "/search") (queryPayload query r.top_k)) = .error e) :
    _retrieve r hash http query = [] := by
  unfold _retrieve
  rw [hfail]

/-- Witness for C1: a connection-refused outcome yields the empty list. -/
theorem retrieve_failure_returns_empty_witness :
    _retrieve (RemoteRetriever.init "http://1.2.3.4:6002/" "dense_small" 10 30)
      (fun _ => 0) (fun _ _ => HttpOutcome.requestError) "what is syftr" = [] :=
  retrieve_failure_returns_empty _ _ _ _ PyErr.requestException rfl

/-- C2: a successful JSON response with N well-formed results maps to
exactly N scored documents in response order; the i-th has
score = `score` (default 0.0), text = `document.page_content`
(default ""), metadata = `document.metadata` (default empty), identifier
`{method}_{i}_{hash(page_content)}`, and no truncation or padding to
`top_k` is applied (the output length is the response length, whatever
`top_k` is). -/
theorem retrieve_wellformed_results (r : RemoteRetriever) (hash : String → Int)
    (http : String → Json → HttpOutcome) (query : String) (specs : List ResultSpec)
    (hh : http (r.api_url ++ "/search") (queryPayload query r.top_k) =
      .success (resultsBody specs)) :
    _retrieve r hash http query = expectedNodes r.retrieval_method hash 0 specs ∧
    (_retrieve r hash http query).length = specs.length := by
  have h := retrieve_success_eq r hash http query specs hh
  exact ⟨h, by rw [h, expectedNodes_length]⟩

/-- Witness for C2: two well-formed results (one with every field, one
with every field absent) against a retriever with `top_k = 10`. -/
theorem retrieve_wellformed_results_witness :
    _retrieve (RemoteRetriever.init "http://h" "bm25" 10 30) (fun _ => 7)
      (fun _ _ => HttpOutcome.success (resultsBody
        [⟨some 1, some ⟨some "alpha", some [("k", Json.str "v")]⟩⟩, ⟨none, none⟩]))
      "query" =
      expectedNodes "bm25" (fun _ => 7) 0
        [⟨some 1, some ⟨some "alpha", some [("k", Json.str "v")]⟩⟩, ⟨none, none⟩] ∧
    (_retrieve (RemoteRetriever.init "http://h" "bm25" 10 30) (fun _ => 7)
      (fun _ _ => HttpOutcome.success (resultsBody
        [⟨some 1, some ⟨some "alpha", some [("k", Json.str "v")]⟩⟩, ⟨none, none⟩]))
      "query").length =
      ([⟨some 1, some ⟨some "alpha", some [("k", Json.str "v")]⟩⟩,
        (⟨none, none⟩ : ResultSpec)]).length :=
  retrieve_wellformed_results _ _ _ _ _ rfl

/-- C3: for every method of the fixed registry, `get_remote_retriever`
returns a retriever whose `api_url` is exactly `http://{host}:{port}` with
the registered port, and whose method, `top_k` and `timeout` are the
arguments given. -/
theorem get_remote_retriever_known_method (host : String) (top_k timeout : Nat)
    (method : String) (port : Nat)
    (hmp : (method, port) ∈ RETRIEVAL_SERVER_PORTS) :
    get_remote_retriever host method top_k timeout =
      .ok { api_url := "http://" ++ host ++ ":" ++ Nat.repr port
            retrieval_method := method
            top_k := top_k
            timeout := timeout } := by
  simp only [RETRIEVAL_SERVER_PORTS, List.mem_cons, List.not_mem_nil, or_false,
    Prod.mk.injEq] at hmp
  rcases hmp with ⟨rfl, rfl⟩ | ⟨rfl, rfl⟩ | ⟨rfl, rfl⟩ | ⟨rfl, rfl⟩ | ⟨rfl, rfl⟩ <;>
    · refine congrArg Except.ok ?_
      unfold RemoteRetriever.init
      rw [rstripSlashes_append_repr]

/-- Witness for C3: `hybrid_small` maps to port 6024. -/
theorem get_remote_retriever_known_method_witness :
    get_remote_retriever "130.127.134.41" "hybrid_small" 5 60 =
      .ok { api_url := "http://" ++ "130.127.134.41" ++ ":" ++ Nat.repr 6024
            retrieval_method := "hybrid_small"
            top_k := 5
            timeout := 60 } :=
  get_remote_retriever_known_method "130.127.134.41" 5 60 "hybrid_small" 6024 (by decide)

/-- C4: for every method string outside the registry, the factory raises
`ValueError` whose message names the unknown method and lists the valid
options, and no retriever is constructed. -/
theorem get_remote_retriever_unknown_method (host method : String) (top_k timeout : Nat)
    (hm : method ∉ RETRIEVAL_SERVER_PORTS.map Prod.fst) :
    get_remote_retriever host method top_k timeout =
      .error ("Unknown retrieval method: " ++ method ++ ". Valid options: " ++
        pyStrListRepr ["bm25", "dense_small", "dense_large", "hybrid_small",
          "hybrid_large"]) ∧
    ∀ retr : RemoteRetriever, get_remote_retriever host method top_k timeout ≠ .ok retr := by
  have hl := lookup_eq_none_of_not_mem method RETRIEVAL_SERVER_PORTS hm
  constructor
  · unfold get_remote_retriever
    rw [hl]
    rfl
  · intro retr hcontra
    unfold get_remote_retriever at hcontra
    rw [hl] at hcontra
    exact Except.noConfusion hcontra

/-- Witness for C4: `sparse` is not a registered method. -/
theorem get_remote_retriever_unknown_method_witness :
    get_remote_retriever "1.2.3.4" "sparse" 10 30 =
      .error ("Unknown retrieval method: " ++ "sparse" ++ ". Valid options: " ++
        pyStrListRepr ["bm25", "dense_small", "dense_large", "hybrid_small",
          "hybrid_large"]) ∧
    ∀ retr : RemoteRetriever, get_remote_retriever "1.2.3.4" "sparse" 10 30 ≠ .ok retr :=
  get_remote_retriever_unknown_method "1.2.3.4" "sparse" 10 30 (by decide)

/-- C5: a first-time `ray_init(force_remote=True)` connects to the
configured remote endpoint and performs none of the local setup: the
directory set and the environment are those of the pre-state, unchanged
(no temp-directory creation, no `RAY_TMPDIR` write). -/
theorem ray_init_force_remote_no_local_setup (cfg : Config) (s : RayState)
    (hinit : s.initialized = false) :
    ray_init cfg true s =
      { s with initialized := true
               connection := some (some cfg.ray_remote_endpoint) } := by
  simp [ray_init, hinit]

/-- Witness for C5: a concrete uninitialized state; directories and
environment come out untouched. -/
theorem ray_init_force_remote_witness :
    ray_init ⟨"ray://10.0.0.1:10001", 20⟩ true
      ⟨false, none, [("MATHEW_HOME", "/home/m")], ["/home"]⟩ =
      ⟨true, some (some "ray://10.0.0.1:10001"), [("MATHEW_HOME", "/home/m")], ["/home"]⟩ :=
  ray_init_force_remote_no_local_setup _ _ rfl

/-- C6: when a connection already exists, `ray_init` is a no-op for any
`force_remote` flag: the state (directories, environment, connection) is
returned unchanged. -/
theorem ray_init_existing_connection_noop (cfg : Config) (force_remote : Bool)
    (s : RayState) (hinit : s.initialized = true) : ray_init cfg force_remote s = s := by
  simp [ray_init, hinit]

/-- Witness for C6: a second call on an already-connected state changes
nothing. -/
theorem ray_init_existing_connection_noop_witness :
    ray_init ⟨"ray://10.0.0.1:10001", 20⟩ false
      ⟨true, some none, [("RAY_TMPDIR", "/tmp/ray")], ["/tmp/ray"]⟩ =
      ⟨true, some none, [("RAY_TMPDIR", "/tmp/ray")], ["/tmp/ray"]⟩ :=
  ray_init_existing_connection_noop _ _ _ rfl

/-- C7: if any single element of `results` is malformed so that mapping it
raises (for example a non-object element), the whole batch is discarded:
`_retrieve` returns `[]`, not the well-formed prefix or remainder. -/
theorem retrieve_malformed_element_discards_batch (r : RemoteRetriever)
    (hash : String → Int) (http : String → Json → HttpOutcome) (query : String)
    (pre post : List Json) (bad : Json)
    (hbad : ∀ fields, bad ≠ Json.obj fields)
    (hh : http (r.api_url ++ "/search") (queryPayload query r.top_k) =
      .success (.obj [("results", .arr (pre ++ bad :: post))])) :
    _retrieve r hash http query = [] := by
  obtain ⟨e, he⟩ := mapResults_error_of_bad r.retrieval_method hash bad post hbad pre 0
  unfold _retrieve
  rw [hh, retrieveTry_obj r hash [("results", .arr (pre ++ bad :: post))]
    (pre ++ bad :: post) rfl, he]

/-- Witness for C7: one well-formed result followed by a bare string
discards the whole batch. -/
theorem retrieve_malformed_element_discards_batch_witness :
    _retrieve (RemoteRetriever.init "http://h" "bm25" 10 30) (fun _ => 0)
      (fun _ _ => HttpOutcome.success (.obj [("results", .arr
        [ResultSpec.toJson ⟨some 1, none⟩, Json.str "oops"])])) "q" = [] :=
  retrieve_malformed_element_discards_batch _ _ _ _
    [ResultSpec.toJson ⟨some 1, none⟩] [] (Json.str "oops")
    (fun _ h => Json.noConfusion h) rfl

/-- C8: a successful response whose `results` key is absent, or maps to an
empty array, yields the empty sequence and is not treated as an error. -/
theorem retrieve_missing_or_empty_results (r : RemoteRetriever) (hash : String → Int)
    (http : String → Json → HttpOutcome) (query : String)
    (fields : List (String × Json))
    (hres : fields.lookup "results" = none ∨
      fields.lookup "results" = some (Json.arr []))
    (hh : http (r.api_url ++ "/search") (queryPayload query r.top_k) =
      .success (.obj fields)) :
    _retrieve r hash http query = [] := by
  unfold _retrieve
  rcases hres with h | h <;>
    rw [hh, retrieveTry_obj r hash fields [] (by rw [h]; rfl)] <;> rfl

/-- Witness for C8: a body with no `results` key yields the empty list. -/
theorem retrieve_missing_or_empty_results_witness :
    _retrieve (RemoteRetriever.init "http://h" "dense_large" 10 30) (fun _ => 0)
      (fun _ _ => HttpOutcome.success (.obj [("status", Json.str "ok")])) "q" = [] :=
  retrieve_missing_or_empty_results _ _ _ _ [("status", Json.str "ok")] (Or.inl rfl) rfl

/-- C9: for a successful response with N well-formed results, the N
identifiers produced in a single call are pairwise distinct, whatever the
content hashes are: each identifier embeds its decimal result index, the
method prefix is fixed within a call, and decimal digits contain no
underscore separator. -/
theorem retrieve_identifiers_unique (r : RemoteRetriever) (hash : String → Int)
    (http : String → Json → HttpOutcome) (query : String) (specs : List ResultSpec)
    (hh : http (r.api_url ++ "/search") (queryPayload query r.top_k) =
      .success (resultsBody specs)) :
    ((_retrieve r hash http query).map (fun n => n.node.id_)).Nodup := by
  rw [retrieve_success_eq r hash http query specs hh]
  exact expectedNodes_ids_nodup r.retrieval_method hash specs 0

/-- Witness for C9: two results with identical content (and hence equal
content hashes) still get distinct identifiers. -/
theorem retrieve_identifiers_unique_witness :
    ((_retrieve (RemoteRetriever.init "http://h" "bm25" 10 30) (fun _ => 42)
      (fun _ _ => HttpOutcome.success (resultsBody
        [⟨some 1, some ⟨some "same", none⟩⟩, ⟨some 1, some ⟨some "same", none⟩⟩]))
      "q").map (fun n => n.node.id_)).Nodup :=
  retrieve_identifiers_unique _ _ _ _ _ rfl

/-- C10 (implicit): the `RemoteRetriever` constructor performs no
validation of `retrieval_method`: for every string `m` — registered or
not — direct construction succeeds (`RemoteRetriever.init` is total),
stores `m` verbatim, and `m` is embedded verbatim as the prefix of every
generated document identifier; only the factory checks the registry, so
the check is bypassed by constructing directly. -/
theorem remote_retriever_init_no_validation (api_url m : String) (k t : Nat)
    (hash : String → Int) (http : String → Json → HttpOutcome) (query : String)
    (specs : List ResultSpec)
    (hh : http ((RemoteRetriever.init api_url m k t).api_url ++ "/search")
        (queryPayload query (RemoteRetriever.init api_url m k t).top_k) =
      .success (resultsBody specs)) :
    (RemoteRetriever.init api_url m k t).retrieval_method = m ∧
    ∀ n ∈ _retrieve (RemoteRetriever.init api_url m k t) hash http query,
      ∃ rest, n.node.id_ = m ++ "_" ++ rest := by
  refine ⟨rfl, ?_⟩
  intro n hn
  rw [retrieve_success_eq _ hash http query specs hh] at hn
  obtain ⟨j, _, hv, hid⟩ := mem_expectedNodes _ hash specs 0 n hn
  refine ⟨Nat.repr j ++ "_" ++ Int.repr hv, ?_⟩
  rw [hid]
  unfold nodeId
  apply String.ext
  simp [RemoteRetriever.init, String.data_append, List.append_assoc]

/-- Witness for C10: a method string outside the registry flows through
construction and into the identifiers. -/
theorem remote_retriever_init_no_validation_witness :
    (RemoteRetriever.init "http://h:1" "made_up_method" 3 9).retrieval_method =
      "made_up_method" ∧
    ∀ n ∈ _retrieve (RemoteRetriever.init "http://h:1" "made_up_method" 3 9)
        (fun _ => 0) (fun _ _ => HttpOutcome.success (resultsBody [⟨none, none⟩])) "q",
      ∃ rest, n.node.id_ = "made_up_method" ++ "_" ++ rest :=
  remote_retriever_init_no_validation _ _ _ _ _ _ _ _ rfl

end Syftr
